import Mathlib

/-!
Verification of the accessible route planner.

This file embeds the planner's data model and operations in Lean 4 and
proves properties about them.  The embedding follows the TypeScript
sources: the accessibility preference and segment-attribute records, the
admissibility test and cost shaping of the neighbor generator, the A*
search loop, the Haversine geometry (over real-number semantics), the
step narration and the route assembly of the public entry point.
Rational numbers stand in for JavaScript numbers wherever the code only
compares and combines finitely representable constants; real numbers are
used for the trigonometric geometry.
-/

open Real

/-- Route-level preference flags, from the AccessibilityPreferences
interface (accessibility-types).  Optional numeric fields are options;
display-oriented fields that the planner never reads are omitted from
the embedding. -/
structure RoutePrefs where
  maxSlope : Option ℚ
  minWidth : Option ℚ
  avoidStairs : Bool
  preferElevators : Bool
  preferRamps : Bool
  audioGuidance : Bool
  preferSmoothTerrain : Bool
  preferShortestRoute : Bool
  preferFewestObstacles : Bool
deriving DecidableEq

/-- User accessibility preferences: disability types, mobility aid and
the route preference record, as consumed by the planner. -/
structure AccessibilityPreferences where
  disabilityTypes : List String
  mobilityAid : Option String
  routePreferences : RoutePrefs
deriving DecidableEq

/-- Physical attributes of a candidate segment, as generated by the
neighbor source and stored on each search node. -/
structure SegmentAttributes where
  hasElevator : Bool
  hasRamp : Bool
  hasStairs : Bool
  width : ℚ
  slope : ℚ
  surface : String
deriving DecidableEq

instance : Inhabited SegmentAttributes :=
  ⟨⟨false, false, false, 0, 0, ""⟩⟩

/-- Default route preferences (accessibility-types:
defaultAccessibilityPreferences.routePreferences). -/
def defaultRoutePrefs : RoutePrefs :=
  ⟨none, none, false, false, false, false, false, true, false⟩

/-- Default accessibility preferences (accessibility-types:
defaultAccessibilityPreferences). -/
def defaultPreferences : AccessibilityPreferences :=
  ⟨[], some "none", defaultRoutePrefs⟩

/-- Wheelchair-class profile test, from the neighbor generator
(routing, getNeighbors): disability type wheelchair, or mobility aid a
wheelchair variant. -/
def isWheelchairProfile (p : AccessibilityPreferences) : Bool :=
  p.disabilityTypes.contains "wheelchair" ||
    p.mobilityAid == some "manual_wheelchair" ||
    p.mobilityAid == some "power_wheelchair"

/-- Hard constraint: avoidStairs and the segment has stairs with
neither ramp nor elevator (routing, getNeighbors). -/
def stairsBlocked (p : AccessibilityPreferences) (a : SegmentAttributes) : Bool :=
  p.routePreferences.avoidStairs && a.hasStairs && !a.hasRamp && !a.hasElevator

/-- Hard constraint: maxSlope is truthy (present and nonzero, as the
JavaScript guard treats 0 as absent) and the slope exceeds it
(routing, getNeighbors). -/
def slopeBlocked (p : AccessibilityPreferences) (a : SegmentAttributes) : Bool :=
  match p.routePreferences.maxSlope with
  | none => false
  | some m => m != 0 && decide (m < a.slope)

/-- Hard constraint: minWidth is truthy (present and nonzero) and the
width is below it (routing, getNeighbors). -/
def widthBlocked (p : AccessibilityPreferences) (a : SegmentAttributes) : Bool :=
  match p.routePreferences.minWidth with
  | none => false
  | some m => m != 0 && decide (a.width < m)

/-- Hard constraint: preferSmoothTerrain and the surface is gravel or
dirt (routing, getNeighbors). -/
def terrainBlocked (p : AccessibilityPreferences) (a : SegmentAttributes) : Bool :=
  p.routePreferences.preferSmoothTerrain && (a.surface == "gravel" || a.surface == "dirt")

/-- Admissibility verdict of the neighbor generator (routing,
getNeighbors): for a wheelchair-class profile the segment is accessible
unless one of the four hard constraints fires; for every other profile
the segment is accessible. -/
def isAccessible (p : AccessibilityPreferences) (a : SegmentAttributes) : Bool :=
  if isWheelchairProfile p then
    !(stairsBlocked p a || slopeBlocked p a || widthBlocked p a || terrainBlocked p a)
  else true

/-- The hard-constraint disjunction exactly as the specification words
it: the maxSlope and minWidth guards fire whenever the option is set,
with no exclusion of the zero value.  Used to refute the claim as
stated against the code's truthiness semantics. -/
def claimHardConstraint (p : AccessibilityPreferences) (a : SegmentAttributes) : Bool :=
  stairsBlocked p a ||
  (match p.routePreferences.maxSlope with
   | none => false
   | some m => decide (m < a.slope)) ||
  (match p.routePreferences.minWidth with
   | none => false
   | some m => decide (a.width < m)) ||
  terrainBlocked p a

/-- Cost multiplier as the product of the applicable factors (routing,
getNeighbors cost shaping): 0.8 for preferred elevators, 0.9 for
preferred ramps, 1.5 for stairs under avoidStairs, 0.9 for smooth
surfaces under preferSmoothTerrain. -/
def costMultiplier (p : AccessibilityPreferences) (a : SegmentAttributes) : ℚ :=
  (if p.routePreferences.preferElevators && a.hasElevator then (4/5 : ℚ) else 1) *
  (if p.routePreferences.preferRamps && a.hasRamp then (9/10 : ℚ) else 1) *
  (if p.routePreferences.avoidStairs && a.hasStairs then (3/2 : ℚ) else 1) *
  (if p.routePreferences.preferSmoothTerrain &&
      (a.surface == "paved" || a.surface == "asphalt" || a.surface == "concrete")
   then (9/10 : ℚ) else 1)

/-- Edge cost of an admissible segment, embedded as the source computes
it (routing, getNeighbors): start from the raw distance and apply each
applicable multiplier in sequence. -/
noncomputable def edgeCost (d : ℝ) (p : AccessibilityPreferences) (a : SegmentAttributes) : ℝ :=
  let c1 := d
  let c2 := if p.routePreferences.preferElevators && a.hasElevator then c1 * (4/5) else c1
  let c3 := if p.routePreferences.preferRamps && a.hasRamp then c2 * (9/10) else c2
  let c4 := if p.routePreferences.avoidStairs && a.hasStairs then c3 * (3/2) else c3
  let c5 := if p.routePreferences.preferSmoothTerrain &&
                (a.surface == "paved" || a.surface == "asphalt" || a.surface == "concrete")
            then c4 * (9/10) else c4
  c5

/-- The stairs constraint fires exactly when avoidStairs is on and the
segment has stairs with neither ramp nor elevator. -/
theorem stairsBlocked_iff (p : AccessibilityPreferences) (a : SegmentAttributes) :
    stairsBlocked p a = true ↔
      (p.routePreferences.avoidStairs = true ∧ a.hasStairs = true ∧
        a.hasRamp = false ∧ a.hasElevator = false) := by
  simp [stairsBlocked, and_assoc]

/-- The slope constraint fires exactly when maxSlope is set to a
nonzero bound that the slope exceeds. -/
theorem slopeBlocked_iff (p : AccessibilityPreferences) (a : SegmentAttributes) :
    slopeBlocked p a = true ↔
      (∃ m, p.routePreferences.maxSlope = some m ∧ m ≠ 0 ∧ m < a.slope) := by
  rcases hms : p.routePreferences.maxSlope with _ | m <;> simp [slopeBlocked, hms]

/-- For a segment of nonnegative width, the width constraint fires
exactly when minWidth is set to a bound above the width; the code's
extra nonzero test is redundant there because a set bound exceeding a
nonnegative width is itself nonzero. -/
theorem widthBlocked_iff (p : AccessibilityPreferences) (a : SegmentAttributes)
    (hw : 0 ≤ a.width) :
    widthBlocked p a = true ↔
      (∃ m, p.routePreferences.minWidth = some m ∧ a.width < m) := by
  rcases hmw : p.routePreferences.minWidth with _ | m <;> simp [widthBlocked, hmw]
  intro hlt
  exact fun h0 => absurd (hw.trans_lt hlt) (by rw [h0]; exact lt_irrefl 0)

/-- The terrain constraint fires exactly when preferSmoothTerrain is on
and the surface is gravel or dirt. -/
theorem terrainBlocked_iff (p : AccessibilityPreferences) (a : SegmentAttributes) :
    terrainBlocked p a = true ↔
      (p.routePreferences.preferSmoothTerrain = true ∧
        (a.surface = "gravel" ∨ a.surface = "dirt")) := by
  simp [terrainBlocked]

/-- C1.  Under the truthiness semantics of the guards, a segment of
nonnegative width is inadmissible exactly when the profile is
wheelchair-class and one hard constraint holds, where the maxSlope
constraint additionally requires the configured bound to be nonzero;
non-wheelchair-class profiles admit every segment. -/
theorem wheelchair_admissibility (p : AccessibilityPreferences) (a : SegmentAttributes)
    (hw : 0 ≤ a.width) :
    isAccessible p a = false ↔
      (isWheelchairProfile p = true ∧
        ((p.routePreferences.avoidStairs = true ∧ a.hasStairs = true ∧
            a.hasRamp = false ∧ a.hasElevator = false) ∨
         (∃ m, p.routePreferences.maxSlope = some m ∧ m ≠ 0 ∧ m < a.slope) ∨
         (∃ m, p.routePreferences.minWidth = some m ∧ a.width < m) ∨
         (p.routePreferences.preferSmoothTerrain = true ∧
            (a.surface = "gravel" ∨ a.surface = "dirt")))) := by
  unfold isAccessible
  cases hwc : isWheelchairProfile p
  · simp
  · rw [if_pos rfl]
    rw [← stairsBlocked_iff p a, ← slopeBlocked_iff p a, ← widthBlocked_iff p a hw,
      ← terrainBlocked_iff p a]
    simp only [Bool.not_eq_false', Bool.or_eq_true, true_and, or_assoc]

/-- C1 witness: a wheelchair profile with avoidStairs set and a
stairs-only segment of nonnegative width is inadmissible. -/
theorem wheelchair_admissibility_witness :
    (0 : ℚ) ≤ (SegmentAttributes.mk false false true 2 1 "paved").width ∧
      isAccessible
        (AccessibilityPreferences.mk ["wheelchair"] (some "none")
          (RoutePrefs.mk none none true false false false false true false))
        (SegmentAttributes.mk false false true 2 1 "paved") = false :=
  ⟨by norm_num,
    (wheelchair_admissibility
      (AccessibilityPreferences.mk ["wheelchair"] (some "none")
        (RoutePrefs.mk none none true false false false false true false))
      (SegmentAttributes.mk false false true 2 1 "paved") (by norm_num)).2
      ⟨by decide, Or.inl (by refine ⟨rfl, rfl, rfl, rfl⟩)⟩⟩

/-- C1 counterexample: with a wheelchair profile whose maxSlope is set
to 0 and a segment whose slope exceeds 0, the specification's
hard-constraint disjunction holds, yet the code leaves the segment
admissible, refuting the claimed equivalence as stated. -/
theorem wheelchair_admissibility_claim_false :
    ¬(isAccessible
        (AccessibilityPreferences.mk ["wheelchair"] (some "none")
          (RoutePrefs.mk (some 0) none false false false false false true false))
        (SegmentAttributes.mk false false false 2 5 "paved") = false ↔
      (isWheelchairProfile
          (AccessibilityPreferences.mk ["wheelchair"] (some "none")
            (RoutePrefs.mk (some 0) none false false false false false true false)) = true ∧
        claimHardConstraint
          (AccessibilityPreferences.mk ["wheelchair"] (some "none")
            (RoutePrefs.mk (some 0) none false false false false false true false))
          (SegmentAttributes.mk false false false 2 5 "paved") = true)) := by
  decide

/-- C7.  The edge cost is the raw distance times the product of the
applicable multipliers, that product is at least 0.8 times 0.9 times
0.9, the cost is bounded below by that fraction of the distance
whenever the distance is nonnegative, and it is strictly positive
whenever the distance is. -/
theorem edge_cost_multiplicative (d : ℝ) (p : AccessibilityPreferences)
    (a : SegmentAttributes) :
    edgeCost d p a = (costMultiplier p a : ℝ) * d ∧
      (81/125 : ℚ) ≤ costMultiplier p a ∧
      (0 ≤ d → (81/125 : ℝ) * d ≤ edgeCost d p a) ∧
      (0 < d → 0 < edgeCost d p a) := by
  have hmul : edgeCost d p a = (costMultiplier p a : ℝ) * d := by
    unfold edgeCost costMultiplier
    split_ifs <;> push_cast <;> ring
  have hlb : (81/125 : ℚ) ≤ costMultiplier p a := by
    unfold costMultiplier
    split_ifs <;> norm_num
  have hlbR : ((81/125 : ℚ) : ℝ) ≤ ((costMultiplier p a : ℚ) : ℝ) := Rat.cast_le.mpr hlb
  have h81 : ((81/125 : ℚ) : ℝ) = (81/125 : ℝ) := by norm_num
  rw [h81] at hlbR
  refine ⟨hmul, hlb, ?_, ?_⟩
  · intro hd
    rw [hmul]
    exact mul_le_mul_of_nonneg_right hlbR hd
  · intro hd
    rw [hmul]
    have hpos : (0 : ℝ) < (costMultiplier p a : ℝ) := by linarith
    positivity

/-- C7 witness: concrete evaluation of the cost identity and bounds at
distance 1 with all preference-relevant features present. -/
theorem edge_cost_multiplicative_witness :
    edgeCost 1
        (AccessibilityPreferences.mk [] (some "none")
          (RoutePrefs.mk none none false true true false true true false))
        (SegmentAttributes.mk true true false 2 1 "paved") =
      (costMultiplier
        (AccessibilityPreferences.mk [] (some "none")
          (RoutePrefs.mk none none false true true false true true false))
        (SegmentAttributes.mk true true false 2 1 "paved") : ℝ) * 1 ∧
    (0 : ℝ) < edgeCost 1
        (AccessibilityPreferences.mk [] (some "none")
          (RoutePrefs.mk none none false true true false true true false))
        (SegmentAttributes.mk true true false 2 1 "paved") :=
  ⟨(edge_cost_multiplicative 1
      (AccessibilityPreferences.mk [] (some "none")
        (RoutePrefs.mk none none false true true false true true false))
      (SegmentAttributes.mk true true false 2 1 "paved")).1,
   (edge_cost_multiplicative 1
      (AccessibilityPreferences.mk [] (some "none")
        (RoutePrefs.mk none none false true true false true true false))
      (SegmentAttributes.mk true true false 2 1 "paved")).2.2.2 (by norm_num)⟩

/-- JavaScript Math.atan2 semantics over the reals (finite, signed-zero
free): quadrant-corrected arctangent. -/
noncomputable def jsAtan2 (y x : ℝ) : ℝ :=
  if 0 < x then arctan (y / x)
  else if x < 0 ∧ 0 ≤ y then arctan (y / x) + π
  else if x < 0 then arctan (y / x) - π
  else if 0 < y then π / 2
  else if y < 0 then -(π / 2)
  else 0

/-- Intermediate value a of the Haversine formula, exactly as computed
by calculateDistance in the source (api and routing): squared half-angle
sine of the latitude delta plus the cosine-weighted squared half-angle
sine of the longitude delta. -/
noncomputable def haverA (lat1 lng1 lat2 lng2 : ℝ) : ℝ :=
  Real.sin ((lat2 - lat1) * π / 180 / 2) * Real.sin ((lat2 - lat1) * π / 180 / 2) +
    Real.cos (lat1 * π / 180) * Real.cos (lat2 * π / 180) *
      Real.sin ((lng2 - lng1) * π / 180 / 2) * Real.sin ((lng2 - lng1) * π / 180 / 2)

/-- Haversine great-circle distance in meters (api calculateDistance,
also duplicated in routing): Earth radius 6371e3, central angle obtained
through atan2 of the square roots. -/
noncomputable def calculateDistance (lat1 lng1 lat2 lng2 : ℝ) : ℝ :=
  6371000 *
    (2 * jsAtan2 (Real.sqrt (haverA lat1 lng1 lat2 lng2))
      (Real.sqrt (1 - haverA lat1 lng1 lat2 lng2)))

/-- Unit vector on the sphere for a latitude/longitude pair in degrees;
verification-layer object used to analyse the Haversine formula. -/
noncomputable def unitVec (lat lng : ℝ) : ℝ × ℝ × ℝ :=
  (Real.cos (lat * π / 180) * Real.cos (lng * π / 180),
   Real.cos (lat * π / 180) * Real.sin (lng * π / 180),
   Real.sin (lat * π / 180))

/-- Euclidean dot product on coordinate triples. -/
def dot3 (u v : ℝ × ℝ × ℝ) : ℝ :=
  u.1 * v.1 + u.2.1 * v.2.1 + u.2.2 * v.2.2

theorem dot3_comm (u v : ℝ × ℝ × ℝ) : dot3 u v = dot3 v u := by
  unfold dot3; ring

theorem sin_half_mul_self (t : ℝ) :
    Real.sin (t / 2) * Real.sin (t / 2) = (1 - Real.cos t) / 2 := by
  have h1 : Real.sin (t / 2) ^ 2 + Real.cos (t / 2) ^ 2 = 1 := Real.sin_sq_add_cos_sq _
  have h2 : Real.cos (2 * (t / 2)) = 2 * Real.cos (t / 2) ^ 2 - 1 := Real.cos_two_mul _
  rw [show 2 * (t / 2) = t by ring] at h2
  nlinarith [h1, h2]

theorem haverA_eq_dot (lat1 lng1 lat2 lng2 : ℝ) :
    2 * haverA lat1 lng1 lat2 lng2 = 1 - dot3 (unitVec lat1 lng1) (unitVec lat2 lng2) := by
  unfold haverA unitVec dot3
  dsimp only
  have hs1 := sin_half_mul_self ((lat2 - lat1) * π / 180)
  have hs2 := sin_half_mul_self ((lng2 - lng1) * π / 180)
  have hlat : Real.cos ((lat2 - lat1) * π / 180) =
      Real.cos (lat2 * π / 180) * Real.cos (lat1 * π / 180) +
        Real.sin (lat2 * π / 180) * Real.sin (lat1 * π / 180) := by
    rw [show (lat2 - lat1) * π / 180 = lat2 * π / 180 - lat1 * π / 180 by ring,
      Real.cos_sub]
  have hlng : Real.cos ((lng2 - lng1) * π / 180) =
      Real.cos (lng2 * π / 180) * Real.cos (lng1 * π / 180) +
        Real.sin (lng2 * π / 180) * Real.sin (lng1 * π / 180) := by
    rw [show (lng2 - lng1) * π / 180 = lng2 * π / 180 - lng1 * π / 180 by ring,
      Real.cos_sub]
  linear_combination 2 * hs1 +
    2 * (Real.cos (lat1 * π / 180) * Real.cos (lat2 * π / 180)) * hs2 - hlat -
    (Real.cos (lat1 * π / 180) * Real.cos (lat2 * π / 180)) * hlng

theorem dot3_unitVec_self (lat lng : ℝ) : dot3 (unitVec lat lng) (unitVec lat lng) = 1 := by
  unfold unitVec dot3
  have h1 : Real.sin (lat * π / 180) ^ 2 + Real.cos (lat * π / 180) ^ 2 = 1 :=
    Real.sin_sq_add_cos_sq _
  have h2 : Real.sin (lng * π / 180) ^ 2 + Real.cos (lng * π / 180) ^ 2 = 1 :=
    Real.sin_sq_add_cos_sq _
  nlinarith [h1, h2]

theorem dot3_sq_le (u v : ℝ × ℝ × ℝ) :
    dot3 u v ^ 2 ≤ dot3 u u * dot3 v v := by
  obtain ⟨u1, u2, u3⟩ := u
  obtain ⟨v1, v2, v3⟩ := v
  unfold dot3
  nlinarith [sq_nonneg (u1 * v2 - u2 * v1), sq_nonneg (u1 * v3 - u3 * v1),
    sq_nonneg (u2 * v3 - u3 * v2)]

theorem dot3_bounds (u v : ℝ × ℝ × ℝ) (hu : dot3 u u = 1) (hv : dot3 v v = 1) :
    -1 ≤ dot3 u v ∧ dot3 u v ≤ 1 := by
  have h := dot3_sq_le u v
  rw [hu, hv, one_mul] at h
  constructor <;> nlinarith [sq_nonneg (dot3 u v + 1), sq_nonneg (dot3 u v - 1)]

theorem dot3_lower (u v w : ℝ × ℝ × ℝ) (hu : dot3 u u = 1) (hv : dot3 v v = 1)
    (hw : dot3 w w = 1) :
    dot3 u v * dot3 v w -
        Real.sqrt (1 - dot3 u v ^ 2) * Real.sqrt (1 - dot3 v w ^ 2) ≤ dot3 u w := by
  obtain ⟨u1, u2, u3⟩ := u
  obtain ⟨v1, v2, v3⟩ := v
  obtain ⟨w1, w2, w3⟩ := w
  set p := dot3 (u1, u2, u3) (v1, v2, v3) with hp
  set q := dot3 (v1, v2, v3) (w1, w2, w3) with hq
  set r := dot3 (u1, u2, u3) (w1, w2, w3) with hr
  have hpq : (r - p * q) ^ 2 ≤ (1 - p ^ 2) * (1 - q ^ 2) := by
    have key := dot3_sq_le (u1 - p * v1, u2 - p * v2, u3 - p * v3)
      (w1 - q * v1, w2 - q * v2, w3 - q * v3)
    have e1 : dot3 (u1 - p * v1, u2 - p * v2, u3 - p * v3)
        (w1 - q * v1, w2 - q * v2, w3 - q * v3) = r - p * q := by
      simp only [dot3] at hp hq hr hv ⊢
      linear_combination (-1 : ℝ) * hr + q * hp + p * hq + p * q * hv
    have e2 : dot3 (u1 - p * v1, u2 - p * v2, u3 - p * v3)
        (u1 - p * v1, u2 - p * v2, u3 - p * v3) = 1 - p ^ 2 := by
      simp only [dot3] at hp hu hv ⊢
      linear_combination hu + 2 * p * hp + p ^ 2 * hv
    have e3 : dot3 (w1 - q * v1, w2 - q * v2, w3 - q * v3)
        (w1 - q * v1, w2 - q * v2, w3 - q * v3) = 1 - q ^ 2 := by
      simp only [dot3] at hq hw hv ⊢
      linear_combination hw + 2 * q * hq + q ^ 2 * hv
    rw [e1, e2, e3] at key
    exact key
  have hp2 : 0 ≤ 1 - p ^ 2 := by
    have hb := dot3_bounds (u1, u2, u3) (v1, v2, v3) hu hv
    rw [← hp] at hb
    nlinarith [hb.1, hb.2]
  have hq2 : 0 ≤ 1 - q ^ 2 := by
    have hb := dot3_bounds (v1, v2, v3) (w1, w2, w3) hv hw
    rw [← hq] at hb
    nlinarith [hb.1, hb.2]
  have hprod : Real.sqrt (1 - p ^ 2) * Real.sqrt (1 - q ^ 2) =
      Real.sqrt ((1 - p ^ 2) * (1 - q ^ 2)) := (Real.sqrt_mul hp2 _).symm
  rw [hprod]
  have habs : |r - p * q| ≤ Real.sqrt ((1 - p ^ 2) * (1 - q ^ 2)) := by
    have h1 : Real.sqrt ((r - p * q) ^ 2) ≤ Real.sqrt ((1 - p ^ 2) * (1 - q ^ 2)) :=
      Real.sqrt_le_sqrt hpq
    rwa [Real.sqrt_sq_eq_abs] at h1
  have := (abs_le.mp habs).1
  linarith

theorem angle_triangle (u v w : ℝ × ℝ × ℝ) (hu : dot3 u u = 1) (hv : dot3 v v = 1)
    (hw : dot3 w w = 1) :
    arccos (dot3 u w) ≤ arccos (dot3 u v) + arccos (dot3 v w) := by
  set p := dot3 u v
  set q := dot3 v w
  set r := dot3 u w
  have hpb := dot3_bounds u v hu hv
  have hqb := dot3_bounds v w hv hw
  have hrb := dot3_bounds u w hu hw
  rcases le_or_lt π (arccos p + arccos q) with hcase | hcase
  · exact le_trans (Real.arccos_le_pi r) hcase
  · have hcos : Real.cos (arccos p + arccos q) ≤ r := by
      rw [Real.cos_add, Real.cos_arccos hpb.1 hpb.2, Real.cos_arccos hqb.1 hqb.2,
        Real.sin_arccos, Real.sin_arccos]
      exact dot3_lower u v w hu hv hw
    by_contra hcon
    push_neg at hcon
    have hmem1 : arccos p + arccos q ∈ Set.Icc (0 : ℝ) π :=
      ⟨add_nonneg (Real.arccos_nonneg p) (Real.arccos_nonneg q), le_of_lt hcase⟩
    have hmem2 : arccos r ∈ Set.Icc (0 : ℝ) π :=
      ⟨Real.arccos_nonneg r, Real.arccos_le_pi r⟩
    have hlt := Real.strictAntiOn_cos hmem1 hmem2 hcon
    rw [Real.cos_arccos hrb.1 hrb.2] at hlt
    linarith

theorem jsAtan2_sqrt_eq_arccos (a : ℝ) (h0 : 0 ≤ a) (h1 : a ≤ 1) :
    2 * jsAtan2 (Real.sqrt a) (Real.sqrt (1 - a)) = arccos (1 - 2 * a) := by
  rcases lt_or_eq_of_le h1 with hlt | rfl
  · have h1a : 0 < 1 - a := by linarith
    have hx : 0 < Real.sqrt (1 - a) := Real.sqrt_pos.mpr h1a
    rw [jsAtan2, if_pos hx]
    set θ := arcsin (Real.sqrt a) with hθdef
    have hsa0 : 0 ≤ Real.sqrt a := Real.sqrt_nonneg a
    have hsa1 : Real.sqrt a ≤ 1 := by
      rw [show (1 : ℝ) = Real.sqrt 1 by rw [Real.sqrt_one]]
      exact Real.sqrt_le_sqrt h1
    have hsin : Real.sin θ = Real.sqrt a := Real.sin_arcsin (by linarith) hsa1
    have hcos : Real.cos θ = Real.sqrt (1 - a) := by
      rw [hθdef, Real.cos_arcsin, Real.sq_sqrt h0]
    have hθ0 : 0 ≤ θ := Real.arcsin_nonneg.mpr hsa0
    have hθlt : θ < π / 2 := by
      rw [hθdef]
      refine Real.arcsin_lt_pi_div_two.mpr ?_
      have hs : Real.sqrt a < Real.sqrt 1 := Real.sqrt_lt_sqrt h0 hlt
      rwa [Real.sqrt_one] at hs
    have harct : arctan (Real.sqrt a / Real.sqrt (1 - a)) = θ := by
      rw [← hsin, ← hcos, ← Real.tan_eq_sin_div_cos]
      exact Real.arctan_tan (by linarith [Real.pi_pos]) hθlt
    rw [harct]
    have hc2 : Real.cos (2 * θ) = 1 - 2 * a := by
      rw [Real.cos_two_mul, hcos, Real.sq_sqrt (le_of_lt h1a)]
      ring
    rw [← hc2, Real.arccos_cos (by linarith) (by linarith)]
  · rw [sub_self, Real.sqrt_zero, Real.sqrt_one, jsAtan2]
    have harc : arccos (1 - 2 * 1) = π := by
      rw [show (1 : ℝ) - 2 * 1 = -1 by norm_num, Real.arccos_neg_one]
    rw [harc]
    norm_num [Real.pi_pos]
    ring

theorem haverA_bounds (lat1 lng1 lat2 lng2 : ℝ) :
    0 ≤ haverA lat1 lng1 lat2 lng2 ∧ haverA lat1 lng1 lat2 lng2 ≤ 1 := by
  have hd := haverA_eq_dot lat1 lng1 lat2 lng2
  have hb := dot3_bounds (unitVec lat1 lng1) (unitVec lat2 lng2)
    (dot3_unitVec_self lat1 lng1) (dot3_unitVec_self lat2 lng2)
  constructor <;> linarith [hb.1, hb.2]

theorem calculateDistance_eq_arccos (lat1 lng1 lat2 lng2 : ℝ) :
    calculateDistance lat1 lng1 lat2 lng2 =
      6371000 * arccos (dot3 (unitVec lat1 lng1) (unitVec lat2 lng2)) := by
  have hb := haverA_bounds lat1 lng1 lat2 lng2
  have hd := haverA_eq_dot lat1 lng1 lat2 lng2
  rw [calculateDistance, jsAtan2_sqrt_eq_arccos _ hb.1 hb.2,
    show 1 - 2 * haverA lat1 lng1 lat2 lng2 =
      dot3 (unitVec lat1 lng1) (unitVec lat2 lng2) by linarith]

/-- C8.  Over the real-number semantics of the embedding, the Haversine
distance is a pseudometric: distance from a point to itself is zero, it
is symmetric, and it satisfies the triangle inequality (the spherical
central angle recovered by the formula is the geodesic angle between
the corresponding unit vectors). -/
theorem haversine_pseudometric (la1 lo1 la2 lo2 la3 lo3 : ℝ) :
    calculateDistance la1 lo1 la1 lo1 = 0 ∧
      calculateDistance la1 lo1 la2 lo2 = calculateDistance la2 lo2 la1 lo1 ∧
      calculateDistance la1 lo1 la3 lo3 ≤
        calculateDistance la1 lo1 la2 lo2 + calculateDistance la2 lo2 la3 lo3 := by
  refine ⟨?_, ?_, ?_⟩
  · rw [calculateDistance_eq_arccos, dot3_unitVec_self, Real.arccos_one, mul_zero]
  · rw [calculateDistance_eq_arccos, calculateDistance_eq_arccos, dot3_comm]
  · rw [calculateDistance_eq_arccos, calculateDistance_eq_arccos,
      calculateDistance_eq_arccos]
    have ht := angle_triangle (unitVec la1 lo1) (unitVec la2 lo2) (unitVec la3 lo3)
      (dot3_unitVec_self la1 lo1) (dot3_unitVec_self la2 lo2) (dot3_unitVec_self la3 lo3)
    have hm := mul_le_mul_of_nonneg_left ht (by norm_num : (0 : ℝ) ≤ 6371000)
    linarith

/-- Search node of the A* implementation (routing, Node interface):
coordinates, g/h/f scores, parent link for path reconstruction, and the
segment attributes that justified reaching it. -/
inductive Node where
  | mk (lat lng g h f : ℝ) (parent : Option Node) (attrs : SegmentAttributes)

def Node.lat : Node → ℝ
  | .mk v _ _ _ _ _ _ => v

def Node.lng : Node → ℝ
  | .mk _ v _ _ _ _ _ => v

def Node.g : Node → ℝ
  | .mk _ _ v _ _ _ _ => v

def Node.h : Node → ℝ
  | .mk _ _ _ v _ _ _ => v

def Node.f : Node → ℝ
  | .mk _ _ _ _ v _ _ => v

def Node.parent : Node → Option Node
  | .mk _ _ _ _ _ v _ => v

def Node.attrs : Node → SegmentAttributes
  | .mk _ _ _ _ _ _ v => v

instance : Inhabited Node :=
  ⟨.mk 0 0 0 0 0 none default⟩

/-- One comparison of the open-set scan (routing, findAccessibleRoute):
adopt index i when its f score is strictly below the current best. -/
noncomputable def selectStep (l : List Node) (ci i : ℕ) : ℕ :=
  if (l.getD i default).f < (l.getD ci default).f then i else ci

/-- Index of the node the search pops from the open set (routing,
findAccessibleRoute): a linear scan from index 1 that replaces the
current best only on a strictly smaller f. -/
noncomputable def selectIndex (l : List Node) : ℕ :=
  (List.range' 1 (l.length - 1)).foldl (selectStep l) 0

theorem selectStep_fold_spec (l : List Node) : ∀ (k s ci : ℕ), ci < s →
    ((List.range' s k).foldl (selectStep l) ci = ci ∨
      (s ≤ (List.range' s k).foldl (selectStep l) ci ∧
        (List.range' s k).foldl (selectStep l) ci < s + k)) ∧
    ((l.getD ((List.range' s k).foldl (selectStep l) ci) default).f ≤
      (l.getD ci default).f) ∧
    (∀ j, s ≤ j → j < s + k →
      (l.getD ((List.range' s k).foldl (selectStep l) ci) default).f ≤
        (l.getD j default).f) ∧
    ((List.range' s k).foldl (selectStep l) ci ≠ ci →
      (l.getD ((List.range' s k).foldl (selectStep l) ci) default).f <
        (l.getD ci default).f) ∧
    (∀ j, s ≤ j → j < s + k → j < (List.range' s k).foldl (selectStep l) ci →
      (l.getD ((List.range' s k).foldl (selectStep l) ci) default).f <
        (l.getD j default).f) := by
  intro k
  induction k with
  | zero =>
    intro s ci hci
    rw [show List.range' s 0 = [] from rfl, List.foldl_nil]
    exact ⟨Or.inl rfl, le_refl _, fun j hj1 hj2 => absurd hj2 (by omega),
      fun hne => absurd rfl hne, fun j hj1 hj2 _ => absurd hj2 (by omega)⟩
  | succ k ih =>
    intro s ci hci
    rw [List.range'_succ, List.foldl_cons]
    by_cases hlt : (l.getD s default).f < (l.getD ci default).f
    · have hstep : selectStep l ci s = s := by
        unfold selectStep
        rw [if_pos hlt]
      rw [hstep]
      obtain ⟨ha, hb, hc, hd, he⟩ := ih (s + 1) s (by omega)
      refine ⟨?_, ?_, ?_, ?_, ?_⟩
      · rcases ha with h | h
        · exact Or.inr ⟨by omega, by omega⟩
        · exact Or.inr ⟨by omega, by omega⟩
      · exact le_of_lt (lt_of_le_of_lt hb hlt)
      · intro j hj1 hj2
        rcases eq_or_lt_of_le hj1 with rfl | hj
        · exact hb
        · exact hc j (by omega) (by omega)
      · intro _
        exact lt_of_le_of_lt hb hlt
      · intro j hj1 hj2 hjr
        rcases eq_or_lt_of_le hj1 with rfl | hj
        · exact hd (by omega)
        · exact he j (by omega) (by omega) hjr
    · have hstep : selectStep l ci s = ci := by
        unfold selectStep
        rw [if_neg hlt]
      rw [hstep]
      obtain ⟨ha, hb, hc, hd, he⟩ := ih (s + 1) ci (by omega)
      push_neg at hlt
      refine ⟨?_, ?_, ?_, ?_, ?_⟩
      · rcases ha with h | h
        · exact Or.inl h
        · exact Or.inr ⟨by omega, by omega⟩
      · exact hb
      · intro j hj1 hj2
        rcases eq_or_lt_of_le hj1 with rfl | hj
        · exact le_trans hb hlt
        · exact hc j (by omega) (by omega)
      · exact hd
      · intro j hj1 hj2 hjr
        rcases eq_or_lt_of_le hj1 with rfl | hj
        · have hne : (List.range' (s + 1) k).foldl (selectStep l) ci ≠ ci := by
            rcases ha with h | h
            · omega
            · omega
          exact lt_of_lt_of_le (hd hne) hlt
        · exact he j (by omega) (by omega) hjr

/-- C4 (amended).  The open-set scan pops a node of minimal f, and among
nodes of equal minimal f it pops the one earliest in open-set order
(discovery order); the h score plays no role in tie-breaking. -/
theorem astar_pop_min_f (l : List Node) (hne : l ≠ []) :
    selectIndex l < l.length ∧
      (∀ j, j < l.length →
        (l.getD (selectIndex l) default).f ≤ (l.getD j default).f) ∧
      (∀ j, j < selectIndex l →
        (l.getD (selectIndex l) default).f < (l.getD j default).f) := by
  have hlen : 1 ≤ l.length := List.length_pos.mpr hne
  obtain ⟨ha, hb, hc, hd, he⟩ := selectStep_fold_spec l (l.length - 1) 1 0 (by omega)
  unfold selectIndex
  refine ⟨?_, ?_, ?_⟩
  · rcases ha with h | h
    · omega
    · omega
  · intro j hj
    rcases Nat.eq_zero_or_pos j with rfl | hj1
    · exact hb
    · exact hc j (by omega) (by omega)
  · intro j hj
    rcases Nat.eq_zero_or_pos j with rfl | hj1
    · exact hd (by omega)
    · have hr : (List.range' 1 (l.length - 1)).foldl (selectStep l) 0 < l.length := by
        rcases ha with h | h
        · omega
        · omega
      exact he j (by omega) (by omega) hj

/-- C4 witness: on a concrete two-node open set the popped index is in
range, carries the minimal f, and strictly beats every earlier index. -/
theorem astar_pop_min_f_witness :
    selectIndex [Node.mk 0 0 0 1 20 none default, Node.mk 0 0 0 1 10 none default] <
        [Node.mk 0 0 0 1 20 none default, Node.mk 0 0 0 1 10 none default].length ∧
      (∀ j, j < [Node.mk 0 0 0 1 20 none default, Node.mk 0 0 0 1 10 none default].length →
        ([Node.mk 0 0 0 1 20 none default, Node.mk 0 0 0 1 10 none default].getD
            (selectIndex [Node.mk 0 0 0 1 20 none default, Node.mk 0 0 0 1 10 none default])
            default).f ≤
          ([Node.mk 0 0 0 1 20 none default, Node.mk 0 0 0 1 10 none default].getD j
            default).f) ∧
      (∀ j, j < selectIndex [Node.mk 0 0 0 1 20 none default,
          Node.mk 0 0 0 1 10 none default] →
        ([Node.mk 0 0 0 1 20 none default, Node.mk 0 0 0 1 10 none default].getD
            (selectIndex [Node.mk 0 0 0 1 20 none default, Node.mk 0 0 0 1 10 none default])
            default).f <
          ([Node.mk 0 0 0 1 20 none default, Node.mk 0 0 0 1 10 none default].getD j
            default).f) :=
  astar_pop_min_f [Node.mk 0 0 0 1 20 none default, Node.mk 0 0 0 1 10 none default]
    (by simp)

/-- C4 counterexample: with two open nodes of equal f where the second
has the strictly lower h, the scan still pops the first; the claimed
lower-h tie-break does not exist in the code. -/
theorem astar_pop_h_tiebreak_false :
    selectIndex [Node.mk 0 0 0 5 10 none default, Node.mk 0 0 0 2 10 none default] = 0 ∧
      ([Node.mk 0 0 0 5 10 none default, Node.mk 0 0 0 2 10 none default].getD 1
          default).f =
        ([Node.mk 0 0 0 5 10 none default, Node.mk 0 0 0 2 10 none default].getD 0
          default).f ∧
      ([Node.mk 0 0 0 5 10 none default, Node.mk 0 0 0 2 10 none default].getD 1
          default).h <
        ([Node.mk 0 0 0 5 10 none default, Node.mk 0 0 0 2 10 none default].getD 0
          default).h := by
  refine ⟨?_, ?_, ?_⟩
  · unfold selectIndex
    simp only [List.length_cons, List.length_nil]
    norm_num [List.range', selectStep, Node.f]
  · simp [Node.f]
  · norm_num [Node.h]

/-- Path reconstruction by walking parent links to the root and
prepending each coordinate (routing, findAccessibleRoute): yields the
root-to-current coordinate sequence. -/
def reconstructPath : Node → List (ℝ × ℝ)
  | .mk lat lng _ _ _ none _ => [(lat, lng)]
  | .mk lat lng _ _ _ (some par) _ => reconstructPath par ++ [(lat, lng)]

/-- Heuristic of the A* search: Haversine distance to the goal
(routing, heuristic). -/
noncomputable def heuristic (n goal : Node) : ℝ :=
  calculateDistance n.lat n.lng goal.lat goal.lng

/-- The eight direction offsets probed by the neighbor generator
(routing, getNeighbors): 0.0001-degree steps N, NE, E, SE, S, SW, W,
NW. -/
def directions : List (ℚ × ℚ) :=
  [(1/10000, 0), (1/10000, 1/10000), (0, 1/10000), (-1/10000, 1/10000),
   (-1/10000, 0), (-1/10000, -1/10000), (0, -1/10000), (1/10000, -1/10000)]

/-- Surface palette of the neighbor generator (routing,
getNeighbors). -/
def surfaces : List String := ["paved", "asphalt", "concrete", "gravel", "dirt"]

/-- Random segment attributes drawn from the stream at position k
(routing, getNeighbors): elevator when the draw exceeds 0.8, ramp when
it exceeds 0.6, stairs when it exceeds 0.5, width 1 plus three times a
draw, slope ten times a draw, surface indexed by the floor of five
times a draw. -/
def drawAttrs (rng : ℕ → ℚ) (k : ℕ) : SegmentAttributes :=
  ⟨decide (4/5 < rng k), decide (3/5 < rng (k + 1)), decide (1/2 < rng (k + 2)),
   1 + rng (k + 3) * 3, rng (k + 4) * 10,
   surfaces.getD (Int.toNat ⌊rng (k + 5) * 5⌋) "undefined"⟩

/-- Neighbor generation (routing, getNeighbors): for each of the eight
directions, draw attributes from the stream, keep the neighbor only if
admissible, and price the edge with the shaped cost.  Returns the
generated neighbors together with the advanced stream position (six
draws per direction). -/
noncomputable def getNeighbors (rng : ℕ → ℚ) (k : ℕ) (node : Node)
    (p : AccessibilityPreferences) : List Node × ℕ :=
  ((List.range 8).foldl (fun acc i =>
    let a := drawAttrs rng (k + 6 * i)
    if isAccessible p a then
      let newLat := node.lat + ((directions.getD i (0, 0)).1 : ℝ)
      let newLng := node.lng + ((directions.getD i (0, 0)).2 : ℝ)
      let cost := edgeCost (calculateDistance node.lat node.lng newLat newLng) p a
      acc ++ [Node.mk newLat newLng (node.g + cost) 0 0 (some node) a]
    else acc) [], k + 48)

/-- Coordinate closeness test used for closed-set and open-set lookup
(routing, findAccessibleRoute): both coordinates within 1e-5. -/
noncomputable def nearNode (a b : Node) : Bool :=
  decide (|a.lat - b.lat| < 1/100000) && decide (|a.lng - b.lng| < 1/100000)

/-- In-place improvement of the first open node matching the neighbor
(routing, findAccessibleRoute): overwrite its g, f and parent, keeping
its stored coordinates, h and attributes. -/
noncomputable def updateFirst (nb : Node) : List Node → List Node
  | [] => []
  | x :: xs =>
    if nearNode x nb then
      Node.mk x.lat x.lng nb.g x.h nb.f nb.parent x.attrs :: xs
    else x :: updateFirst nb xs

/-- Processing of one generated neighbor (routing, findAccessibleRoute
inner loop): skip it when a closed node is near; otherwise fill in h
and f, then either skip (an open node is at least as good), improve the
open node in place, or append the neighbor to the open set. -/
noncomputable def processNeighbor (goal : Node) (closedS : List Node)
    (openS : List Node) (nb : Node) : List Node :=
  if closedS.any (fun n => nearNode n nb) then openS
  else
    let hval := heuristic nb goal
    let nb2 := Node.mk nb.lat nb.lng nb.g hval (nb.g + hval) nb.parent nb.attrs
    match openS.find? (fun n => nearNode n nb2) with
    | none => openS ++ [nb2]
    | some onb => if onb.g ≤ nb2.g then openS else updateFirst nb2 openS

/-- Main loop of the A* search (routing, findAccessibleRoute): fuel is
the remaining iteration budget (1000 at entry).  Pops the minimal-f
open node, returns the reconstructed path when it is within 20 meters
of the goal, otherwise closes it and processes its neighbors; when the
open set empties or the budget runs out, returns the direct two-point
fallback. -/
noncomputable def searchLoop (rng : ℕ → ℚ) (p : AccessibilityPreferences)
    (sLat sLng : ℝ) (goal : Node) :
    ℕ → ℕ → List Node → List Node → List (ℝ × ℝ)
  | _, 0, _, _ => [(sLat, sLng), (goal.lat, goal.lng)]
  | k, fuel + 1, openS, closedS =>
    if openS.isEmpty then [(sLat, sLng), (goal.lat, goal.lng)]
    else
      let idx := selectIndex openS
      let current := openS.getD idx default
      if calculateDistance current.lat current.lng goal.lat goal.lng < 20 then
        reconstructPath current
      else
        let openS2 := openS.eraseIdx idx
        let closedS2 := closedS ++ [current]
        let nb := getNeighbors rng k current p
        searchLoop rng p sLat sLng goal nb.2 fuel
          (nb.1.foldl (processNeighbor goal closedS2) openS2) closedS2

/-- Entry point of the A* search (routing, findAccessibleRoute): builds
the start and goal nodes (width 2, paved, no features), seeds the open
set with the start node carrying its heuristic, and runs the loop with
the 1000-iteration budget. -/
noncomputable def findAccessibleRouteAStar (rng : ℕ → ℚ)
    (startLat startLng goalLat goalLng : ℝ)
    (p : AccessibilityPreferences) : List (ℝ × ℝ) :=
  let goalN := Node.mk goalLat goalLng 0 0 0 none ⟨false, false, false, 2, 0, "paved"⟩
  let h0 := calculateDistance startLat startLng goalLat goalLng
  let startN := Node.mk startLat startLng 0 h0 (0 + h0) none
    ⟨false, false, false, 2, 0, "paved"⟩
  searchLoop rng p startLat startLng goalN 0 1000 [startN] []

theorem searchLoop_budget_exhausted (rng : ℕ → ℚ) (p : AccessibilityPreferences)
    (sLat sLng : ℝ) (goal : Node) (k : ℕ) (openS closedS : List Node) :
    searchLoop rng p sLat sLng goal k 0 openS closedS =
      [(sLat, sLng), (goal.lat, goal.lng)] := by
  rw [searchLoop]

theorem searchLoop_open_exhausted (rng : ℕ → ℚ) (p : AccessibilityPreferences)
    (sLat sLng : ℝ) (goal : Node) (k fuel : ℕ) (closedS : List Node) :
    searchLoop rng p sLat sLng goal k fuel [] closedS =
      [(sLat, sLng), (goal.lat, goal.lng)] := by
  cases fuel with
  | zero => rw [searchLoop]
  | succ n =>
    rw [searchLoop]
    simp [List.isEmpty]

/-- Wheelchair preferences with avoidStairs used by the search-failure
run: every stairs-only segment is pruned. -/
def wheelchairAvoidStairsPrefs : AccessibilityPreferences :=
  ⟨["wheelchair"], some "manual_wheelchair",
    ⟨none, none, true, false, false, false, false, true, false⟩⟩

theorem haverA_zero_one_eighty : haverA 0 0 0 180 = 1 := by
  unfold haverA
  rw [show ((0 : ℝ) - 0) * π / 180 / 2 = 0 by ring,
    show ((180 : ℝ) - 0) * π / 180 / 2 = π / 2 by ring,
    show ((0 : ℝ) * π / 180) = 0 by ring]
  rw [Real.sin_zero, Real.cos_zero, Real.sin_pi_div_two]
  ring

theorem calculateDistance_zero_one_eighty :
    calculateDistance 0 0 0 180 = 6371000 * π := by
  rw [calculateDistance, haverA_zero_one_eighty,
    jsAtan2_sqrt_eq_arccos 1 (by norm_num) (le_refl 1),
    show (1 : ℝ) - 2 * 1 = -1 by norm_num, Real.arccos_neg_one]

theorem calculateDistance_zero_one_eighty_far :
    ¬ calculateDistance 0 0 0 180 < 20 := by
  rw [calculateDistance_zero_one_eighty]
  intro h
  nlinarith [Real.pi_gt_three]

theorem drawAttrs_const_eleven_twentieths (k : ℕ) :
    drawAttrs (fun _ => 11/20) k = ⟨false, false, true, 53/20, 11/2, "concrete"⟩ := by
  unfold drawAttrs
  norm_num [surfaces]
  rfl

theorem stairs_only_inadmissible :
    isAccessible wheelchairAvoidStairsPrefs ⟨false, false, true, 53/20, 11/2, "concrete"⟩
      = false := by
  decide

theorem getNeighbors_all_blocked (rng : ℕ → ℚ) (k : ℕ) (node : Node)
    (hdraw : ∀ j, drawAttrs rng j = ⟨false, false, true, 53/20, 11/2, "concrete"⟩) :
    getNeighbors rng k node wheelchairAvoidStairsPrefs = ([], k + 48) := by
  unfold getNeighbors
  rw [show List.range 8 = [0, 1, 2, 3, 4, 5, 6, 7] from rfl]
  simp only [List.foldl_cons, List.foldl_nil, hdraw, stairs_only_inadmissible,
    Bool.false_eq_true, if_false]

/-- C2.  Evaluation of the A* search at the failing input: with the
wheelchair avoid-stairs profile and the constant 0.55 random stream
(every probed segment has stairs and no ramp or elevator), the open set
is exhausted after the first expansion and the search returns only the
bare two-point coordinate list from start to goal; no route object, no
accessibility score of 50 and no descriptive string is produced on this
path. -/
theorem astar_exhaustion_returns_bare_waypoints :
    findAccessibleRouteAStar (fun _ => 11/20) 0 0 0 180 wheelchairAvoidStairsPrefs =
      [(0, 0), (0, 180)] := by
  unfold findAccessibleRouteAStar
  rw [show (1000 : ℕ) = 999 + 1 from rfl, searchLoop]
  rw [if_neg (by simp [List.isEmpty])]
  have hsel : selectIndex [Node.mk 0 0 0 (calculateDistance 0 0 0 180)
      (0 + calculateDistance 0 0 0 180) none ⟨false, false, false, 2, 0, "paved"⟩] = 0 := by
    unfold selectIndex
    simp [List.range']
  rw [hsel]
  simp only [List.getD, List.get?, Option.getD_some]
  rw [if_neg (by
    simp only [Node.lat, Node.lng]
    exact calculateDistance_zero_one_eighty_far)]
  rw [getNeighbors_all_blocked (fun _ => 11/20) 0 _ drawAttrs_const_eleven_twentieths]
  simp only [List.foldl_nil, List.eraseIdx]
  rw [searchLoop_open_exhausted]
  simp only [Node.lat, Node.lng]

/-- Turn-by-turn step record (api, RouteStep): instruction text,
distance to the next maneuver, optional maneuver kind, optional
duration, optional target waypoint. -/
structure RouteStep where
  instruction : String
  distance : ℝ
  maneuver : Option String
  duration : Option ℝ
  waypoint : Option (ℝ × ℝ)

instance : Inhabited RouteStep :=
  ⟨⟨"", 0, none, none, none⟩⟩

/-- Route record (api, Route). -/
structure Route where
  distance : ℝ
  duration : ℝ
  waypoints : List (ℝ × ℝ)
  steps : List RouteStep
  accessibilityScore : ℚ
  description : String

instance : Inhabited Route :=
  ⟨⟨0, 0, [], [], 0, ""⟩⟩

/-- JavaScript Math.round: round half toward positive infinity. -/
noncomputable def jsRound (x : ℝ) : ℤ := ⌊x + 1/2⌋

/-- JavaScript remainder, valid for the nonnegative operands produced
by the turn-angle computation: x minus y times the floor of x/y. -/
noncomputable def realMod (x y : ℝ) : ℝ := x - y * ⌊x / y⌋

/-- Initial compass bearing in degrees, normalized into the range 0 to
360 (api, calculateBearing). -/
noncomputable def calculateBearing (startLat startLng destLat destLng : ℝ) : ℝ :=
  let sLat := startLat * π / 180
  let sLng := startLng * π / 180
  let dLat := destLat * π / 180
  let dLng := destLng * π / 180
  let y := Real.sin (dLng - sLng) * Real.cos dLat
  let x := Real.cos sLat * Real.sin dLat -
    Real.sin sLat * Real.cos dLat * Real.cos (dLng - sLng)
  let bearing := jsAtan2 y x * 180 / π
  if bearing < 0 then bearing + 360 else bearing

/-- Compass direction of a bearing (api, bearingToDirection): index the
octant table by round(bearing / 45) mod 8; the fallback entry is
unreachable for the nonnegative bearings the code produces. -/
noncomputable def bearingToDirection (bearing : ℝ) : String :=
  ["north", "northeast", "east", "southeast", "south", "southwest", "west",
    "northwest"].getD (Int.toNat (jsRound (bearing / 45) % 8)) "north"

/-- One narration step for index i of the waypoint list (api,
findAccessibleRoute step loop): the first segment is a Head step, the
segment at index length minus two is the arrive step, interior segments
are classified by the turn angle between consecutive bearings. -/
noncomputable def stepAt (wp : List (ℝ × ℝ)) (i : ℕ) : RouteStep :=
  let frm := wp.getD i (0, 0)
  let nxt := wp.getD (i + 1) (0, 0)
  let dist := calculateDistance frm.1 frm.2 nxt.1 nxt.2
  let bearing := calculateBearing frm.1 frm.2 nxt.1 nxt.2
  let direction := bearingToDirection bearing
  if i = 0 then
    ⟨"Head " ++ direction ++ " for " ++ toString (jsRound dist) ++ " meters",
      dist, some "straight", none, some nxt⟩
  else if i = wp.length - 2 then
    ⟨"Arrive at your destination", dist, some "arrive", none, some nxt⟩
  else
    let prev := wp.getD (i - 1) (0, 0)
    let prevBearing := calculateBearing prev.1 prev.2 frm.1 frm.2
    let turnAngle := realMod (bearing - prevBearing + 360) 360
    if turnAngle < 45 ∨ 315 < turnAngle then
      ⟨"Continue " ++ direction ++ " for " ++ toString (jsRound dist) ++ " meters",
        dist, some "straight", none, some nxt⟩
    else if turnAngle < 135 then
      ⟨"Turn right and go " ++ toString (jsRound dist) ++ " meters",
        dist, some "turn-right", none, some nxt⟩
    else if turnAngle < 225 then
      ⟨"Make a U-turn and go " ++ toString (jsRound dist) ++ " meters",
        dist, some "uturn", none, some nxt⟩
    else
      ⟨"Turn left and go " ++ toString (jsRound dist) ++ " meters",
        dist, some "turn-left", none, some nxt⟩

/-- Step list generation (api, findAccessibleRoute): one step per
consecutive waypoint pair, indexed from 0 to length minus two. -/
noncomputable def generateSteps (wp : List (ℝ × ℝ)) : List RouteStep :=
  (List.range (wp.length - 1)).map (stepAt wp)

/-- Total route distance (api, findAccessibleRoute): sum of the
Haversine distances of consecutive waypoint pairs. -/
noncomputable def totalDistanceOf (wp : List (ℝ × ℝ)) : ℝ :=
  (List.range (wp.length - 1)).foldl (fun acc i =>
    acc + calculateDistance (wp.getD i (0, 0)).1 (wp.getD i (0, 0)).2
      (wp.getD (i + 1) (0, 0)).1 (wp.getD (i + 1) (0, 0)).2) 0

/-- Deterministic path interpolation of the current api
findAccessiblePath: the start point, four evenly spaced intermediate
waypoints at ratios 1/5 through 4/5, and the goal point. -/
noncomputable def findAccessiblePathApi (startLat startLng goalLat goalLng : ℝ) :
    List (ℝ × ℝ) :=
  (startLat, startLng) ::
    ((List.range' 1 4).map (fun i =>
      (startLat + (goalLat - startLat) * (i : ℝ) / 5,
       startLng + (goalLng - startLng) * (i : ℝ) / 5)) ++ [(goalLat, goalLng)])

/-- Accessibility score of the current api findAccessibleRoute: 100
minus the waypoint count, clamped to 0 through 100. -/
def apiScore (n : ℕ) : ℚ := min 100 (max 0 (100 - (n : ℚ)))

/-- Description thresholds (api, findAccessibleRoute). -/
def describeScore (s : ℚ) : String :=
  if s > 90 then "Most accessible route"
  else if s > 70 then "Accessible route"
  else "Route with some accessibility challenges"

/-- Public route-finding entry point (api, findAccessibleRoute): builds
the interpolated waypoints, totals the distance, derives the duration
at 5 km/h, narrates the steps, scores the route, and appends the two
synthesized variants (Shortest: 0.8 scaling and score minus 20;
most-accessible: 1.2 scaling and score plus 15).  The source performs
no coordinate validation before any of this. -/
noncomputable def findAccessibleRouteApi (start goal : ℝ × ℝ)
    (p : AccessibilityPreferences) : List Route :=
  let wp := findAccessiblePathApi start.1 start.2 goal.1 goal.2
  let totalDistance := totalDistanceOf wp
  let duration := totalDistance / 5000 * 60
  let steps := generateSteps wp
  let score := apiScore wp.length
  let route : Route := ⟨totalDistance, duration, wp, steps, score, describeScore score⟩
  let shorter : Route := ⟨totalDistance * (4/5), duration * (4/5), wp, steps,
    max 0 (score - 20), "Shortest route (may have accessibility challenges)"⟩
  let longer : Route := ⟨totalDistance * (6/5), duration * (6/5), wp, steps,
    min 100 (score + 15), "Most accessible route (slightly longer)"⟩
  [route, shorter, longer]

/-- Fallback route of the exception handler of the api entry point
(api, findAccessibleRoute catch block): the only place in the sources
where the score 50 and the direct-route description are produced. -/
noncomputable def directFallbackRoute (start goal : ℝ × ℝ) : Route :=
  let d := calculateDistance start.1 start.2 goal.1 goal.2
  ⟨d, d / 5000 * 60, [start, goal],
    [⟨"Head to your destination", d, some "straight", none, none⟩,
     ⟨"Arrive at your destination", 0, some "arrive", none, none⟩],
    50, "Direct route (accessibility not verified)"⟩

/-- Jittered path interpolation of the legacy api variant
findAccessiblePath: each of the four intermediate waypoints is
displaced by (draw minus one half) times 0.001 in each coordinate, two
draws per waypoint. -/
noncomputable def findAccessiblePathV7 (rng : ℕ → ℚ)
    (startLat startLng goalLat goalLng : ℝ) : List (ℝ × ℝ) :=
  (startLat, startLng) ::
    ((List.range 4).map (fun (j : ℕ) =>
      (startLat + (goalLat - startLat) * ((j : ℝ) + 1) / 5 +
        (((rng (2 * j) - 1/2) * (1/1000) : ℚ) : ℝ),
       startLng + (goalLng - startLng) * ((j : ℝ) + 1) / 5 +
        (((rng (2 * j + 1) - 1/2) * (1/1000) : ℚ) : ℝ))) ++ [(goalLat, goalLng)])

theorem findAccessiblePathApi_length (a b c d : ℝ) :
    (findAccessiblePathApi a b c d).length = 6 := by
  rw [findAccessiblePathApi, show List.range' 1 4 = [1, 2, 3, 4] from rfl]
  simp

theorem generateSteps_length (wp : List (ℝ × ℝ)) :
    (generateSteps wp).length = wp.length - 1 := by
  simp [generateSteps]

theorem findAccessiblePathApi_head (a b c d : ℝ) :
    (findAccessiblePathApi a b c d).head? = some (a, b) := by
  rw [findAccessiblePathApi]
  rfl

theorem findAccessiblePathApi_getLast (a b c d : ℝ) :
    (findAccessiblePathApi a b c d).getLast? = some (c, d) := by
  rw [findAccessiblePathApi, ← List.cons_append, List.getLast?_concat]

/-- C10.  Every route returned on the success path of the public entry
point has exactly one step per consecutive waypoint pair, starts at the
requested start coordinate and ends at the requested goal
coordinate. -/
theorem route_shape (s g : ℝ × ℝ) (p : AccessibilityPreferences) (r : Route)
    (hr : r ∈ findAccessibleRouteApi s g p) :
    r.steps.length = r.waypoints.length - 1 ∧
      r.waypoints.head? = some s ∧
      r.waypoints.getLast? = some g := by
  simp only [findAccessibleRouteApi, List.mem_cons, List.not_mem_nil, or_false] at hr
  have hhead := findAccessiblePathApi_head s.1 s.2 g.1 g.2
  have hlast := findAccessiblePathApi_getLast s.1 s.2 g.1 g.2
  rcases hr with rfl | rfl | rfl <;>
    exact ⟨generateSteps_length _, by rw [hhead], by rw [hlast]⟩

/-- C10 witness: the first route returned for start (0,0) and goal
(1,1) under default preferences satisfies all three shape
properties. -/
theorem route_shape_witness :
    ((findAccessibleRouteApi (0, 0) (1, 1) defaultPreferences).headD default).steps.length =
        ((findAccessibleRouteApi (0, 0) (1, 1) defaultPreferences).headD
          default).waypoints.length - 1 ∧
      ((findAccessibleRouteApi (0, 0) (1, 1) defaultPreferences).headD
          default).waypoints.head? = some (0, 0) ∧
      ((findAccessibleRouteApi (0, 0) (1, 1) defaultPreferences).headD
          default).waypoints.getLast? = some (1, 1) :=
  route_shape (0, 0) (1, 1) defaultPreferences
    ((findAccessibleRouteApi (0, 0) (1, 1) defaultPreferences).headD default)
    (by simp [findAccessibleRouteApi])

/-- C9.  At the out-of-range start latitude 200 the public entry point
performs no validation: it returns the usual three routes, the invalid
coordinate flows into the first waypoint unchanged, and none of the
returned descriptions is an invalid-input error. -/
theorem no_coordinate_validation :
    (findAccessibleRouteApi (200, 0) (0, 0) defaultPreferences).length = 3 ∧
      ((findAccessibleRouteApi (200, 0) (0, 0) defaultPreferences).headD
          default).waypoints.head? = some (200, 0) ∧
      (findAccessibleRouteApi (200, 0) (0, 0) defaultPreferences).map Route.description =
        ["Most accessible route", "Shortest route (may have accessibility challenges)",
          "Most accessible route (slightly longer)"] := by
  refine ⟨rfl, ?_, ?_⟩
  · simp only [findAccessibleRouteApi, List.headD_cons]
    exact findAccessiblePathApi_head 200 0 0 0
  · simp only [findAccessibleRouteApi, List.map_cons, List.map_nil]
    rw [findAccessiblePathApi_length]
    norm_num [apiScore, describeScore]

/-- C5 (amended).  The scores of the three returned routes are 94
(clamp of 100 minus the six waypoints), 74 (that minus 20, clamped at
0) and 100 (that plus 15, clamped at 100), with the matching
descriptions; the base-70 adjustment scheme of the claim is not used by
the current entry point. -/
theorem api_score_values (s g : ℝ × ℝ) (p : AccessibilityPreferences) :
    (findAccessibleRouteApi s g p).map Route.accessibilityScore = [94, 74, 100] ∧
      (findAccessibleRouteApi s g p).map Route.description =
        ["Most accessible route", "Shortest route (may have accessibility challenges)",
          "Most accessible route (slightly longer)"] := by
  have hlen := findAccessiblePathApi_length s.1 s.2 g.1 g.2
  simp only [findAccessibleRouteApi, List.map_cons, List.map_nil]
  rw [hlen]
  norm_num [apiScore, describeScore]

/-- C5 counterexample: the primary route's score at a concrete input is
94, which is none of the four values the claimed base-70 scheme can
produce (90, 80, 40 or 70 after clamping). -/
theorem api_score_never_base70 :
    ((findAccessibleRouteApi (0, 0) (0, 1) defaultPreferences).headD
        default).accessibilityScore = 94 ∧
      ((94 : ℚ) ≠ min 100 (max 0 (70 + 20)) ∧ (94 : ℚ) ≠ min 100 (max 0 (70 + 10)) ∧
        (94 : ℚ) ≠ min 100 (max 0 (70 - 30)) ∧ (94 : ℚ) ≠ min 100 (max 0 (70 : ℚ))) := by
  constructor
  · simp only [findAccessibleRouteApi, List.headD_cons]
    rw [findAccessiblePathApi_length]
    norm_num [apiScore]
  · refine ⟨by norm_num, by norm_num, by norm_num, by norm_num⟩

theorem generateSteps_getLastD (wp : List (ℝ × ℝ)) (h2 : 2 ≤ wp.length) :
    (generateSteps wp).getLastD default = stepAt wp (wp.length - 2) := by
  unfold generateSteps
  rw [show wp.length - 1 = (wp.length - 2) + 1 by omega, List.range_succ, List.map_append]
  simp

/-- C6 (amended).  For every waypoint sequence of length at least 3,
the last produced step is the arrive step: instruction Arrive at your
destination, maneuver arrive, and distance equal to the Haversine
length of the final segment (not 0). -/
theorem last_step_arrive (wp : List (ℝ × ℝ)) (h3 : 3 ≤ wp.length) :
    ((generateSteps wp).getLastD default).instruction = "Arrive at your destination" ∧
      ((generateSteps wp).getLastD default).maneuver = some "arrive" ∧
      ((generateSteps wp).getLastD default).distance =
        calculateDistance (wp.getD (wp.length - 2) (0, 0)).1
          (wp.getD (wp.length - 2) (0, 0)).2
          (wp.getD (wp.length - 1) (0, 0)).1 (wp.getD (wp.length - 1) (0, 0)).2 := by
  rw [generateSteps_getLastD wp (by omega)]
  unfold stepAt
  rw [if_neg (by omega), if_pos rfl]
  refine ⟨rfl, rfl, ?_⟩
  rw [show wp.length - 2 + 1 = wp.length - 1 by omega]

/-- C6 witness: concrete three-waypoint sequence along the equator; the
last step is the arrive step and its distance is the final segment's
Haversine length. -/
theorem last_step_arrive_witness :
    ((generateSteps [((0 : ℝ), (0 : ℝ)), ((0 : ℝ), (90 : ℝ)),
        ((0 : ℝ), (180 : ℝ))]).getLastD default).instruction =
        "Arrive at your destination" ∧
      ((generateSteps [((0 : ℝ), (0 : ℝ)), ((0 : ℝ), (90 : ℝ)),
          ((0 : ℝ), (180 : ℝ))]).getLastD default).maneuver = some "arrive" ∧
      ((generateSteps [((0 : ℝ), (0 : ℝ)), ((0 : ℝ), (90 : ℝ)),
          ((0 : ℝ), (180 : ℝ))]).getLastD default).distance =
        calculateDistance 0 90 0 180 := by
  have h := last_step_arrive [((0 : ℝ), (0 : ℝ)), ((0 : ℝ), (90 : ℝ)),
    ((0 : ℝ), (180 : ℝ))] (by norm_num)
  refine ⟨h.1, h.2.1, ?_⟩
  have h2 := h.2.2
  norm_num at h2
  exact h2

theorem calculateDistance_0_90_0_180 :
    calculateDistance 0 90 0 180 = 6371000 * (π / 2) := by
  have hA : haverA 0 90 0 180 = 1/2 := by
    unfold haverA
    rw [show ((0 : ℝ) - 0) * π / 180 / 2 = 0 by ring,
      show ((180 : ℝ) - 90) * π / 180 / 2 = π / 4 by ring,
      show ((0 : ℝ) * π / 180) = 0 by ring]
    rw [Real.sin_zero, Real.cos_zero, Real.sin_pi_div_four]
    have h2 : Real.sqrt 2 * Real.sqrt 2 = 2 := Real.mul_self_sqrt (by norm_num)
    linear_combination (1/4 : ℝ) * h2
  rw [calculateDistance, hA, jsAtan2_sqrt_eq_arccos (1/2) (by norm_num) (by norm_num),
    show (1 : ℝ) - 2 * (1/2) = 0 by norm_num, Real.arccos_zero]

/-- C6 counterexample: for a two-waypoint sequence the single produced
step is a Head step with maneuver straight, not the claimed arrive
step; and for a three-waypoint equatorial sequence the arrive step's
distance is a quarter of Earth's circumference, not the claimed 0. -/
theorem last_step_arrive_claim_false :
    ((generateSteps [((0 : ℝ), (0 : ℝ)), ((0 : ℝ), (90 : ℝ))]).getLastD default).maneuver =
        some "straight" ∧
      some "straight" ≠ some "arrive" ∧
      ((generateSteps [((0 : ℝ), (0 : ℝ)), ((0 : ℝ), (90 : ℝ)),
          ((0 : ℝ), (180 : ℝ))]).getLastD default).distance = 6371000 * (π / 2) ∧
      (6371000 : ℝ) * (π / 2) ≠ 0 := by
  refine ⟨?_, by decide, ?_, ?_⟩
  · rw [generateSteps_getLastD _ (by norm_num)]
    unfold stepAt
    norm_num
  · rw [generateSteps_getLastD _ (by norm_num)]
    unfold stepAt
    rw [if_neg (by norm_num), if_pos (by norm_num)]
    exact calculateDistance_0_90_0_180
  · have hpos : (0 : ℝ) < 6371000 * (π / 2) := by positivity
    exact hpos.ne'

/-- C3.  The legacy path builder consumes the global random stream for
waypoint jitter: with identical start, goal and preferences, two runs
under different stream values produce different waypoint lists, so the
Route output is not a function of the declared inputs. -/
theorem route_output_depends_on_randomness :
    findAccessiblePathV7 (fun _ => 9/10) 0 0 0 1 ≠
      findAccessiblePathV7 (fun _ => 1/10) 0 0 0 1 := by
  intro h
  have h1 := congrArg (fun l => (l.getD 1 (0, 0)).1) h
  simp only [findAccessiblePathV7, show List.range 4 = [0, 1, 2, 3] from rfl,
    List.map_cons, List.map_nil, List.cons_append, List.nil_append,
    List.getD, List.get?, Option.getD_some] at h1
  norm_num at h1
